import Mathlib

/-!
Shallow embedding of `src/frontend/script.js` (SkillKrack interview recorder).

The script is a single-threaded, event-driven recorder built on module-level
mutable variables (`stream`, `mediaRecorder`, `recordedChunks`, `isRecording`,
`recordedVideoUrl`, `isMicEnabled`, `recordingTime`, `timerInterval`,
`isPreviewMode`).  We embed that mutable state as the structure `JSState` and
each JavaScript function as a state transformer with the same name.

Platform objects are modelled explicitly so that resource lifetimes are
observable:

* every `MediaStream` handed out by `getUserMedia` is kept in a registry
  (`streams`); `track.stop()` flips the track's `live` flag in the registry,
  so "active media source" is a decidable predicate on the state;
* every object URL created by `URL.createObjectURL` is kept, together with its
  `Blob`, in the registry `urls`; `URL.revokeObjectURL` removes it, so the
  number of outstanding artifact handles is `urls.length`;
* every `setInterval` call registers a fresh interval id in `intervals` and a
  timer tick is an event `Event.tick i` that only has an effect while `i` is
  registered; `clearInterval` deregisters one id.  This mirrors the browser:
  an interval keeps firing until the id returned by *its* `setInterval` call
  is cleared;
* similarly each `MediaRecorder` that was started and not yet stopped has its
  id in `recorders`; a `dataavailable` callback is the event `Event.frag r d`
  and only has an effect while `r` is registered.

The `onstop` callback of the recorder is executed synchronously at the end of
`stopRecording` (in the browser it is an asynchronous callback; the script
wires it so that it fires after `mediaRecorder.stop()`, and no claim below
depends on events interleaving in that gap).  A final buffered
`dataavailable` delivery is modelled as an ordinary `Event.frag` before the
stop.  Purely visual DOM mutations (button labels, css classes, icons, the
question list) carry no further state and are omitted; the mode switching
functions `switchToPreviewMode` / `switchToPlaybackMode` are kept because
they write the module variable `isPreviewMode`, which realises the spec's
`ViewMode`.
-/

namespace SkillKrack

/-- Kind of a media track: `getUserMedia({video, audio})` yields one video
track and, when audio was requested, one audio track. -/
inductive TrackKind
  | video
  | audio
  deriving DecidableEq

/-- A media track.  `live` is false once `track.stop()` ran; `enabled`
mirrors the writable `track.enabled` property. -/
structure Track where
  kind : TrackKind
  live : Bool
  enabled : Bool
  deriving DecidableEq

/-- A media stream as returned by `getUserMedia`: an identity plus its
tracks. -/
structure MediaStream where
  id : Nat
  tracks : List Track
  deriving DecidableEq

/-- Byte content of one `dataavailable` fragment. -/
abbrev Fragment := List Nat

/-- A binary blob: concatenated byte data plus the mime type it was tagged
with (`new Blob(parts, { type })`). -/
structure Blob where
  data : List Nat
  type : String
  deriving DecidableEq

/-- The module-level mutable state of `script.js`, together with the
platform registries described in the header comment. -/
structure JSState where
  /-- registry of every stream `getUserMedia` ever returned -/
  streams : List MediaStream
  /-- the module variable `stream` (an id into `streams`) -/
  stream : Option Nat
  nextStreamId : Nat
  /-- ids of recorders that were started and not yet stopped -/
  recorders : List Nat
  /-- the module variable `mediaRecorder` -/
  mediaRecorder : Option Nat
  nextRecorderId : Nat
  /-- the module variable `recordedChunks` -/
  recordedChunks : List Fragment
  /-- the module variable `isRecording` -/
  isRecording : Bool
  /-- registry of live object URLs with their blobs -/
  urls : List (Nat × Blob)
  /-- the module variable `recordedVideoUrl` -/
  recordedVideoUrl : Option Nat
  nextUrlId : Nat
  /-- the module variable `isMicEnabled` -/
  isMicEnabled : Bool
  /-- the module variable `recordingTime` -/
  recordingTime : Nat
  /-- ids of armed `setInterval` timers -/
  intervals : List Nat
  /-- the module variable `timerInterval` (the id stored by the last
  `setInterval`; `clearInterval` does not null it) -/
  timerInterval : Option Nat
  nextIntervalId : Nat
  /-- the module variable `isPreviewMode` -/
  isPreviewMode : Bool
  deriving DecidableEq

/-- The initial values of the module variables (script.js lines 1-10), with
empty platform registries. -/
def initState : JSState :=
  { streams := []
    stream := none
    nextStreamId := 0
    recorders := []
    mediaRecorder := none
    nextRecorderId := 0
    recordedChunks := []
    isRecording := false
    urls := []
    recordedVideoUrl := none
    nextUrlId := 0
    isMicEnabled := true
    recordingTime := 0
    intervals := []
    timerInterval := none
    nextIntervalId := 0
    isPreviewMode := true }

/-- `initializeCamera` (script.js 57-75).  On success `getUserMedia` returns
a fresh stream (video track, plus an audio track iff `isMicEnabled` was
passed) which is stored into the module variable `stream`; the previous
stream, if any, is left untouched in the registry.  On failure (permission
denied / no device) the function only alerts: no state changes.  The
`ok` flag is the resolution of the asynchronous `getUserMedia` call. -/
def initializeCamera (ok : Bool) (s : JSState) : JSState :=
  if ok then
    { s with
      streams := s.streams ++
        [{ id := s.nextStreamId
           tracks := { kind := TrackKind.video, live := true, enabled := true } ::
             (if s.isMicEnabled then
               [{ kind := TrackKind.audio, live := true, enabled := true }]
              else []) }]
      stream := some s.nextStreamId
      nextStreamId := s.nextStreamId + 1 }
  else s

/-- `switchToPreviewMode` (script.js 176-183): all other statements are css
class toggles. -/
def switchToPreviewMode (s : JSState) : JSState :=
  { s with isPreviewMode := true }

/-- `switchToPlaybackMode` (script.js 185-193): binds `recordedVideoUrl` to
the playback surface and flips the mode flag. -/
def switchToPlaybackMode (s : JSState) : JSState :=
  { s with isPreviewMode := false }

/-- `startRecording` (script.js 85-119).  Returns immediately when `stream`
is null.  Otherwise: clears `recordedChunks`, creates and starts a new
`MediaRecorder` (the previous recorder object, if still running, keeps its
registry entry: nothing stops it), sets `isRecording`, zeroes
`recordingTime`, and arms a new `setInterval` whose id overwrites
`timerInterval` (a previously armed interval is not cleared). -/
def startRecording (s : JSState) : JSState :=
  match s.stream with
  | none => s
  | some _ =>
    { s with
      recordedChunks := []
      mediaRecorder := some s.nextRecorderId
      recorders := s.recorders ++ [s.nextRecorderId]
      nextRecorderId := s.nextRecorderId + 1
      isRecording := true
      recordingTime := 0
      intervals := s.intervals ++ [s.nextIntervalId]
      timerInterval := some s.nextIntervalId
      nextIntervalId := s.nextIntervalId + 1 }

/-- The `ondataavailable` handler (script.js 93-97), fired by recorder `r`:
while `r` is a started recorder, a fragment is appended iff its size is
positive. -/
def dataAvailable (r : Nat) (d : Fragment) (s : JSState) : JSState :=
  if r ∈ s.recorders then
    if 0 < d.length then { s with recordedChunks := s.recordedChunks ++ [d] }
    else s
  else s

/-- The `onstop` handler (script.js 99-105): assembles `recordedChunks` into
one blob tagged `"video/webm"`, creates a fresh object URL for it (the
previous `recordedVideoUrl`, if any, is overwritten without being revoked),
and switches to playback mode. -/
def recorderOnStop (s : JSState) : JSState :=
  switchToPlaybackMode
    { s with
      urls := s.urls ++ [(s.nextUrlId, { data := s.recordedChunks.flatten, type := "video/webm" })]
      recordedVideoUrl := some s.nextUrlId
      nextUrlId := s.nextUrlId + 1 }

/-- `stopRecording` (script.js 121-128).  Guarded by
`mediaRecorder && isRecording`; stops the current recorder, clears the flag,
clears the interval whose id is stored in `timerInterval` (only that one),
and then the recorder's `onstop` callback runs. -/
def stopRecording (s : JSState) : JSState :=
  match s.mediaRecorder with
  | none => s
  | some r =>
    if s.isRecording then
      recorderOnStop
        { s with
          recorders := s.recorders.erase r
          isRecording := false
          intervals :=
            match s.timerInterval with
            | some i => s.intervals.erase i
            | none => s.intervals }
    else s

/-- `resetRecording` (script.js 130-143): revokes `recordedVideoUrl` if set,
clears the fragment list, zeroes the counter, switches to preview mode and
re-runs `initializeCamera` (whose asynchronous resolution is the `ok`
flag).  Note the old stream's tracks are not stopped anywhere here. -/
def resetRecording (ok : Bool) (s : JSState) : JSState :=
  let s1 :=
    match s.recordedVideoUrl with
    | some u => { s with urls := s.urls.filter (fun p => p.1 != u), recordedVideoUrl := none }
    | none => s
  initializeCamera ok
    (switchToPreviewMode
      { s1 with recordedChunks := [], recordingTime := 0, isPreviewMode := true })

/-- `setStreamAudioEnabled` is the loop body of `toggleMicrophone`
(script.js 163-165): `stream.getAudioTracks().forEach(t => t.enabled = v)`. -/
def setStreamAudioEnabled (v : Bool) (st : MediaStream) : MediaStream :=
  { st with
    tracks := st.tracks.map fun t =>
      if t.kind = TrackKind.audio then { t with enabled := v } else t }

/-- `toggleMicrophone` (script.js 159-169): unconditionally flips
`isMicEnabled`; then, only if a stream exists, writes the new value to the
`enabled` property of that stream's audio tracks in place. -/
def toggleMicrophone (s : JSState) : JSState :=
  match s.stream with
  | none => { s with isMicEnabled := !s.isMicEnabled }
  | some i =>
    { s with
      isMicEnabled := !s.isMicEnabled
      streams := s.streams.map fun (st : MediaStream) =>
        if st.id = i then setStreamAudioEnabled (!s.isMicEnabled) st else st }

/-- `stopTracks` models `stream.getTracks().forEach(t => t.stop())`. -/
def stopTracks (st : MediaStream) : MediaStream :=
  { st with tracks := st.tracks.map fun t => { t with live := false } }

/-- The `beforeunload` handler (script.js 30-37): stops every track of the
current stream and clears the interval stored in `timerInterval`.  It does
not touch `recordedVideoUrl` or the url registry. -/
def beforeunload (s : JSState) : JSState :=
  let s1 :=
    match s.stream with
    | some i =>
      { s with
        streams := s.streams.map fun (st : MediaStream) =>
          if st.id = i then stopTracks st else st }
    | none => s
  match s1.timerInterval with
  | some i => { s1 with intervals := s1.intervals.erase i }
  | none => s1

/-- One firing of the `setInterval` callback armed by `startRecording`
(script.js 115-118): it increments `recordingTime`.  The browser keeps
firing it while the interval id `i` is registered. -/
def tickFire (i : Nat) (s : JSState) : JSState :=
  if i ∈ s.intervals then { s with recordingTime := s.recordingTime + 1 } else s

/-- One calendar timestamp, the fields `Date.prototype.toISOString` prints
(month is the 1-based ISO month). -/
structure Date where
  year : Nat
  month : Nat
  day : Nat
  hour : Nat
  minute : Nat
  second : Nat
  ms : Nat
  deriving DecidableEq

/-- The decimal digit character of `n % 10`. -/
def digitChar (n : Nat) : Char :=
  if n % 10 = 0 then '0'
  else if n % 10 = 1 then '1'
  else if n % 10 = 2 then '2'
  else if n % 10 = 3 then '3'
  else if n % 10 = 4 then '4'
  else if n % 10 = 5 then '5'
  else if n % 10 = 6 then '6'
  else if n % 10 = 7 then '7'
  else if n % 10 = 8 then '8'
  else '9'

/-- Two fixed decimal digits, as `String(n).padStart(2, "0")` prints an
in-range date field. -/
def pad2 (n : Nat) : List Char := [digitChar (n / 10), digitChar n]

/-- Three fixed decimal digits (the milliseconds field). -/
def pad3 (n : Nat) : List Char := [digitChar (n / 100), digitChar (n / 10), digitChar n]

/-- Four fixed decimal digits (the year field). -/
def pad4 (n : Nat) : List Char :=
  [digitChar (n / 1000), digitChar (n / 100), digitChar (n / 10), digitChar n]

/-- Model of the ECMAScript builtin `Date.prototype.toISOString` for
in-range dates: `YYYY-MM-DDTHH:MM:SS.mmmZ` as a character list. -/
def toISOString (d : Date) : List Char :=
  pad4 d.year ++ '-' :: pad2 d.month ++ '-' :: pad2 d.day ++
    'T' :: pad2 d.hour ++ ':' :: pad2 d.minute ++ ':' :: pad2 d.second ++
    '.' :: pad3 d.ms ++ ['Z']

/-- The callback of `.replace(/:/g, "-")` applied to one character. -/
def deColon (c : Char) : Char := if c = ':' then '-' else c

/-- The filename built in `downloadVideo` (script.js 149-152):
`interview-recording-` ++ the ISO timestamp sliced to 19 characters (whole
seconds) with `:` replaced by `-`, ++ `.webm`. -/
def downloadFilename (now : Date) : List Char :=
  "interview-recording-".data ++ ((toISOString now).take 19).map deColon ++ ".webm".data

/-- The observable effect of clicking the generated anchor: which object URL
is saved under which filename. -/
structure DownloadAction where
  href : Nat
  filename : List Char
  deriving DecidableEq

/-- `downloadVideo` (script.js 145-157): when `recordedVideoUrl` is set it
triggers a save of that url under the generated filename; the appended
anchor element is removed again, so the module state is returned unchanged.
When no url is set nothing happens. -/
def downloadVideo (now : Date) (s : JSState) : JSState × Option DownloadAction :=
  match s.recordedVideoUrl with
  | some u => (s, some { href := u, filename := downloadFilename now })
  | none => (s, none)

/-- The events the page can deliver to the script: resolutions of
`initializeCamera` (ok / failed), the exported control functions, the
unload handler, timer ticks and recorder data deliveries. -/
inductive Event
  | cameraOk
  | cameraFail
  | start
  | stop
  | resetOk
  | resetFail
  | toggleMic
  | unload
  | download
  | tick (i : Nat)
  | frag (r : Nat) (d : Fragment)
  deriving DecidableEq

/-- Dispatch one event (the `download` event returns the state unchanged, as
`downloadVideo` does; its observable output is modelled by `downloadVideo`). -/
def step (s : JSState) : Event → JSState
  | Event.cameraOk => initializeCamera true s
  | Event.cameraFail => initializeCamera false s
  | Event.start => startRecording s
  | Event.stop => stopRecording s
  | Event.resetOk => resetRecording true s
  | Event.resetFail => resetRecording false s
  | Event.toggleMic => toggleMicrophone s
  | Event.unload => beforeunload s
  | Event.download => s
  | Event.tick i => tickFire i s
  | Event.frag r d => dataAvailable r d s

/-- Run a sequence of events. -/
def run (s : JSState) : List Event → JSState
  | [] => s
  | e :: es => run (step s e) es

/-- The spec's `RecordingSession` states (§4.2). -/
inductive RState
  | idle
  | recording
  | stopped
  deriving DecidableEq

/-- The spec's `ViewMode` (§4.3). -/
inductive ViewMode
  | preview
  | playback
  deriving DecidableEq

/-- The `RecordingSession` state realised by the module variables:
`isRecording` marks Recording, holding a finished artifact marks Stopped
(§4.2 "Stopped(has artifact)"), anything else is Idle. -/
def stateOf (s : JSState) : RState :=
  if s.isRecording then RState.recording
  else if s.recordedVideoUrl.isSome then RState.stopped
  else RState.idle

/-- The `ViewMode` realised by the module variable `isPreviewMode`. -/
def viewModeOf (s : JSState) : ViewMode :=
  if s.isPreviewMode then ViewMode.preview else ViewMode.playback

/-- Number of outstanding (created, not yet revoked) artifact object URLs. -/
def liveUrlCount (s : JSState) : Nat := s.urls.length

/-- A stream is active while any of its tracks is still live. -/
def streamActive (st : MediaStream) : Bool := st.tracks.any fun t => t.live

/-- Number of active media sources in the whole session. -/
def activeStreamCount (s : JSState) : Nat := (s.streams.filter streamActive).length

/-- The §4.2 precondition of `start()`: the session is Idle (not recording,
no artifact held). -/
def startGuard (s : JSState) : Prop :=
  s.isRecording = false ∧ s.recordedVideoUrl = none

/-- States reachable from the initial state when `start` is only invoked in
Idle, i.e. along event sequences that respect the §4.2 transition table's
precondition for `start()`; all other events are unrestricted. -/
inductive GuardedReach : JSState → Prop
  | init : GuardedReach initState
  | next (s : JSState) (e : Event) (h : GuardedReach s)
      (hg : e = Event.start → startGuard s) : GuardedReach (step s e)

/-- The inductive invariant maintained by every event along guarded runs:
the artifact-url registry is governed by `recordedVideoUrl` (a1-a3), the
mode flag tracks "holds an artifact and is not recording" (m), and at most
one timer interval is armed, known to `timerInterval`, with a recorder
object present whenever recording (t1-t3). -/
structure GlobalInv (s : JSState) : Prop where
  a1 : ∀ p ∈ s.urls, s.recordedVideoUrl = some p.1
  a2 : s.urls.length ≤ 1
  a3 : s.isRecording = true → s.urls = []
  m : s.isPreviewMode = false ↔ (s.isRecording = false ∧ s.recordedVideoUrl ≠ none)
  t1 : s.isRecording = false → s.intervals = []
  t2 : s.intervals = [] ∨ ∃ i, s.intervals = [i] ∧ s.timerInterval = some i
  t3 : s.isRecording = true → s.mediaRecorder ≠ none

/-- Transport of the invariant along any operation that leaves all seven
fields it mentions unchanged. -/
theorem globalInv_congr {s t : JSState}
    (hurls : t.urls = s.urls) (hurl : t.recordedVideoUrl = s.recordedVideoUrl)
    (hrec : t.isRecording = s.isRecording) (hprev : t.isPreviewMode = s.isPreviewMode)
    (hint : t.intervals = s.intervals) (htv : t.timerInterval = s.timerInterval)
    (hmr : t.mediaRecorder = s.mediaRecorder) (h : GlobalInv s) : GlobalInv t := by
  refine ⟨?_, ?_, ?_, ?_, ?_, ?_, ?_⟩
  · rw [hurls, hurl]; exact h.a1
  · rw [hurls]; exact h.a2
  · rw [hrec, hurls]; exact h.a3
  · rw [hprev, hrec, hurl]; exact h.m
  · rw [hrec, hint]; exact h.t1
  · rw [hint, htv]; exact h.t2
  · rw [hrec, hmr]; exact h.t3

theorem initializeCamera_urls (b : Bool) (s : JSState) :
    (initializeCamera b s).urls = s.urls := by cases b <;> rfl

theorem initializeCamera_recordedVideoUrl (b : Bool) (s : JSState) :
    (initializeCamera b s).recordedVideoUrl = s.recordedVideoUrl := by cases b <;> rfl

theorem initializeCamera_isRecording (b : Bool) (s : JSState) :
    (initializeCamera b s).isRecording = s.isRecording := by cases b <;> rfl

theorem initializeCamera_isPreviewMode (b : Bool) (s : JSState) :
    (initializeCamera b s).isPreviewMode = s.isPreviewMode := by cases b <;> rfl

theorem initializeCamera_intervals (b : Bool) (s : JSState) :
    (initializeCamera b s).intervals = s.intervals := by cases b <;> rfl

theorem initializeCamera_timerInterval (b : Bool) (s : JSState) :
    (initializeCamera b s).timerInterval = s.timerInterval := by cases b <;> rfl

theorem initializeCamera_mediaRecorder (b : Bool) (s : JSState) :
    (initializeCamera b s).mediaRecorder = s.mediaRecorder := by cases b <;> rfl

theorem inv_initializeCamera (b : Bool) (s : JSState) (h : GlobalInv s) :
    GlobalInv (initializeCamera b s) :=
  globalInv_congr (initializeCamera_urls b s) (initializeCamera_recordedVideoUrl b s)
    (initializeCamera_isRecording b s) (initializeCamera_isPreviewMode b s)
    (initializeCamera_intervals b s) (initializeCamera_timerInterval b s)
    (initializeCamera_mediaRecorder b s) h

theorem inv_toggleMic (s : JSState) (h : GlobalInv s) : GlobalInv (toggleMicrophone s) := by
  cases hs : s.stream with
  | none =>
    exact globalInv_congr (by simp [toggleMicrophone, hs]) (by simp [toggleMicrophone, hs])
      (by simp [toggleMicrophone, hs]) (by simp [toggleMicrophone, hs])
      (by simp [toggleMicrophone, hs]) (by simp [toggleMicrophone, hs])
      (by simp [toggleMicrophone, hs]) h
  | some i =>
    exact globalInv_congr (by simp [toggleMicrophone, hs]) (by simp [toggleMicrophone, hs])
      (by simp [toggleMicrophone, hs]) (by simp [toggleMicrophone, hs])
      (by simp [toggleMicrophone, hs]) (by simp [toggleMicrophone, hs])
      (by simp [toggleMicrophone, hs]) h

theorem inv_tick (i : Nat) (s : JSState) (h : GlobalInv s) : GlobalInv (tickFire i s) := by
  by_cases hi : i ∈ s.intervals
  · exact globalInv_congr (by simp [tickFire, hi]) (by simp [tickFire, hi])
      (by simp [tickFire, hi]) (by simp [tickFire, hi]) (by simp [tickFire, hi])
      (by simp [tickFire, hi]) (by simp [tickFire, hi]) h
  · simpa [tickFire, hi] using h

theorem inv_frag (r : Nat) (d : Fragment) (s : JSState) (h : GlobalInv s) :
    GlobalInv (dataAvailable r d s) := by
  by_cases hr : r ∈ s.recorders
  · by_cases hd : 0 < d.length
    · exact globalInv_congr (by simp [dataAvailable, hr, hd]) (by simp [dataAvailable, hr, hd])
        (by simp [dataAvailable, hr, hd]) (by simp [dataAvailable, hr, hd])
        (by simp [dataAvailable, hr, hd]) (by simp [dataAvailable, hr, hd])
        (by simp [dataAvailable, hr, hd]) h
    · simpa [dataAvailable, hr, hd] using h
  · simpa [dataAvailable, hr] using h

/-- Along the invariant, when no artifact reference is held the url
registry is empty. -/
theorem urls_nil_of_none (s : JSState) (h : GlobalInv s)
    (hu : s.recordedVideoUrl = none) : s.urls = [] := by
  rcases hl : s.urls with _ | ⟨p, l⟩
  · rfl
  · have hmem := h.a1 p (by rw [hl]; exact List.mem_cons_self p l)
    rw [hu] at hmem
    cases hmem

theorem inv_start (s : JSState) (h : GlobalInv s) (hg : startGuard s) :
    GlobalInv (startRecording s) := by
  obtain ⟨hrec, hurl⟩ := hg
  have hurls : s.urls = [] := urls_nil_of_none s h hurl
  have hint : s.intervals = [] := h.t1 hrec
  have hprev : s.isPreviewMode = true := by
    have hm := h.m
    rw [hurl] at hm
    simp at hm
    exact hm
  cases hs : s.stream with
  | none => simpa [startRecording, hs] using h
  | some i =>
    refine ⟨?_, ?_, ?_, ?_, ?_, ?_, ?_⟩
    · simp [startRecording, hs, hurls]
    · simp [startRecording, hs, hurls]
    · simp [startRecording, hs, hurls]
    · simp [startRecording, hs, hurl, hprev]
    · simp [startRecording, hs]
    · exact Or.inr ⟨s.nextIntervalId, by simp [startRecording, hs, hint], by simp [startRecording, hs]⟩
    · simp [startRecording, hs]

theorem inv_stop (s : JSState) (h : GlobalInv s) : GlobalInv (stopRecording s) := by
  cases hmr : s.mediaRecorder with
  | none => simpa [stopRecording, hmr] using h
  | some r =>
    cases hrec : s.isRecording with
    | false => simpa [stopRecording, hmr, hrec] using h
    | true =>
      have hurls : s.urls = [] := h.a3 hrec
      have hint : (match s.timerInterval with
          | some i => s.intervals.erase i
          | none => s.intervals) = [] := by
        rcases h.t2 with h2 | ⟨i, h2, h3⟩
        · rw [h2]; cases s.timerInterval <;> simp
        · rw [h2, h3]; simp
      refine ⟨?_, ?_, ?_, ?_, ?_, ?_, ?_⟩ <;>
        simp [stopRecording, recorderOnStop, switchToPlaybackMode, hmr, hrec, hurls, hint]

theorem inv_reset (b : Bool) (s : JSState) (h : GlobalInv s) :
    GlobalInv (resetRecording b s) := by
  cases hu : s.recordedVideoUrl with
  | none =>
    have hnil := urls_nil_of_none s h hu
    refine ⟨?_, ?_, ?_, ?_, ?_, ?_, ?_⟩
    · simp [resetRecording, hu, switchToPreviewMode, initializeCamera_urls,
        initializeCamera_recordedVideoUrl, hnil]
    · simp [resetRecording, hu, switchToPreviewMode, initializeCamera_urls, hnil]
    · simp [resetRecording, hu, switchToPreviewMode, initializeCamera_urls,
        initializeCamera_isRecording, hnil]
    · simp [resetRecording, hu, switchToPreviewMode, initializeCamera_isPreviewMode,
        initializeCamera_isRecording, initializeCamera_recordedVideoUrl]
    · simpa [resetRecording, hu, switchToPreviewMode, initializeCamera_isRecording,
        initializeCamera_intervals] using h.t1
    · simpa [resetRecording, hu, switchToPreviewMode, initializeCamera_intervals,
        initializeCamera_timerInterval] using h.t2
    · simpa [resetRecording, hu, switchToPreviewMode, initializeCamera_isRecording,
        initializeCamera_mediaRecorder] using h.t3
  | some u =>
    have hf : s.urls.filter (fun p => p.1 != u) = [] := by
      apply List.filter_eq_nil_iff.mpr
      intro p hp
      have ha := h.a1 p hp
      rw [hu] at ha
      injection ha with ha2
      simp [ha2]
    refine ⟨?_, ?_, ?_, ?_, ?_, ?_, ?_⟩
    · simp [resetRecording, hu, switchToPreviewMode, initializeCamera_urls,
        initializeCamera_recordedVideoUrl, hf]
    · simp [resetRecording, hu, switchToPreviewMode, initializeCamera_urls, hf]
    · simp [resetRecording, hu, switchToPreviewMode, initializeCamera_urls,
        initializeCamera_isRecording, hf]
    · simp [resetRecording, hu, switchToPreviewMode, initializeCamera_isPreviewMode,
        initializeCamera_isRecording, initializeCamera_recordedVideoUrl]
    · simpa [resetRecording, hu, switchToPreviewMode, initializeCamera_isRecording,
        initializeCamera_intervals] using h.t1
    · simpa [resetRecording, hu, switchToPreviewMode, initializeCamera_intervals,
        initializeCamera_timerInterval] using h.t2
    · simpa [resetRecording, hu, switchToPreviewMode, initializeCamera_isRecording,
        initializeCamera_mediaRecorder] using h.t3

theorem inv_unload (s : JSState) (h : GlobalInv s) : GlobalInv (beforeunload s) := by
  cases hs : s.stream with
  | none =>
    cases ht : s.timerInterval with
    | none => simpa [beforeunload, hs, ht] using h
    | some i =>
      refine ⟨?_, ?_, ?_, ?_, ?_, ?_, ?_⟩
      · simpa [beforeunload, hs, ht] using h.a1
      · simpa [beforeunload, hs, ht] using h.a2
      · simpa [beforeunload, hs, ht] using h.a3
      · simpa [beforeunload, hs, ht] using h.m
      · intro hr
        have := h.t1 (by simpa [beforeunload, hs, ht] using hr)
        simp [beforeunload, hs, ht, this]
      · rcases h.t2 with h2 | ⟨j, h2, h3⟩
        · exact Or.inl (by simp [beforeunload, hs, ht, h2])
        · rw [ht] at h3
          injection h3 with h3
          exact Or.inl (by simp [beforeunload, hs, ht, h2, h3])
      · simpa [beforeunload, hs, ht] using h.t3
  | some k =>
    cases ht : s.timerInterval with
    | none =>
      refine ⟨?_, ?_, ?_, ?_, ?_, ?_, ?_⟩
      · simpa [beforeunload, hs, ht] using h.a1
      · simpa [beforeunload, hs, ht] using h.a2
      · simpa [beforeunload, hs, ht] using h.a3
      · simpa [beforeunload, hs, ht] using h.m
      · simpa [beforeunload, hs, ht] using h.t1
      · simpa [beforeunload, hs, ht] using h.t2
      · simpa [beforeunload, hs, ht] using h.t3
    | some i =>
      refine ⟨?_, ?_, ?_, ?_, ?_, ?_, ?_⟩
      · simpa [beforeunload, hs, ht] using h.a1
      · simpa [beforeunload, hs, ht] using h.a2
      · simpa [beforeunload, hs, ht] using h.a3
      · simpa [beforeunload, hs, ht] using h.m
      · intro hr
        have := h.t1 (by simpa [beforeunload, hs, ht] using hr)
        simp [beforeunload, hs, ht, this]
      · rcases h.t2 with h2 | ⟨j, h2, h3⟩
        · exact Or.inl (by simp [beforeunload, hs, ht, h2])
        · rw [ht] at h3
          injection h3 with h3
          exact Or.inl (by simp [beforeunload, hs, ht, h2, h3])
      · simpa [beforeunload, hs, ht] using h.t3

theorem inv_init : GlobalInv initState := by
  refine ⟨?_, ?_, ?_, ?_, ?_, ?_, ?_⟩ <;> simp [initState]

theorem inv_step (s : JSState) (e : Event) (h : GlobalInv s)
    (hg : e = Event.start → startGuard s) : GlobalInv (step s e) := by
  cases e with
  | cameraOk => exact inv_initializeCamera true s h
  | cameraFail => exact inv_initializeCamera false s h
  | start => exact inv_start s h (hg rfl)
  | stop => exact inv_stop s h
  | resetOk => exact inv_reset true s h
  | resetFail => exact inv_reset false s h
  | toggleMic => exact inv_toggleMic s h
  | unload => exact inv_unload s h
  | download => exact h
  | tick i => exact inv_tick i s h
  | frag r d => exact inv_frag r d s h

/-- Every state reachable along guarded runs satisfies the invariant. -/
theorem guarded_inv {s : JSState} (h : GuardedReach s) : GlobalInv s := by
  induction h with
  | init => exact inv_init
  | next s e h hg ih => exact inv_step s e ih hg

/-- Delivering a list of fragments to a registered recorder appends exactly
the positive-size ones, in order, and changes nothing else. -/
theorem run_frag_map (r : Nat) (ds : List Fragment) (s : JSState) (h : r ∈ s.recorders) :
    run s (ds.map (Event.frag r)) =
      { s with recordedChunks :=
          s.recordedChunks ++ ds.filter (fun d => decide (0 < d.length)) } := by
  induction ds generalizing s with
  | nil => simp [run]
  | cons d ds ih =>
    by_cases hd : 0 < d.length
    · have hstep : step s (Event.frag r d) =
          { s with recordedChunks := s.recordedChunks ++ [d] } := by
        simp [step, dataAvailable, h, hd]
      rw [List.map_cons]
      show run (step s (Event.frag r d)) (ds.map (Event.frag r)) = _
      rw [hstep, ih _ (by simpa using h)]
      simp [hd, List.filter_cons]
    · have hstep : step s (Event.frag r d) = s := by
        simp [step, dataAvailable, h, hd]
      rw [List.map_cons]
      show run (step s (Event.frag r d)) (ds.map (Event.frag r)) = _
      rw [hstep, ih _ h]
      simp [hd, List.filter_cons]

theorem digitChar_ne_colon (n : Nat) : digitChar n ≠ ':' := by
  unfold digitChar
  split_ifs <;> decide

theorem colon_ne_digitChar (n : Nat) : ':' ≠ digitChar n :=
  fun h => digitChar_ne_colon n h.symm

theorem deColon_digitChar (n : Nat) : deColon (digitChar n) = digitChar n := by
  unfold deColon
  rw [if_neg (digitChar_ne_colon n)]

theorem deColon_colon : deColon ':' = '-' := rfl

theorem deColon_dash : deColon '-' = '-' := rfl

theorem deColon_T : deColon 'T' = 'T' := rfl

/-- The ISO string splits into its 19-character date-time prefix and the
milliseconds suffix. -/
theorem iso_split (d : Date) :
    toISOString d =
      (pad4 d.year ++ '-' :: pad2 d.month ++ '-' :: pad2 d.day ++
        'T' :: pad2 d.hour ++ ':' :: pad2 d.minute ++ ':' :: pad2 d.second) ++
      ('.' :: pad3 d.ms ++ ['Z']) := by
  simp [toISOString, List.append_assoc]

theorem front_len (d : Date) :
    (pad4 d.year ++ '-' :: pad2 d.month ++ '-' :: pad2 d.day ++
      'T' :: pad2 d.hour ++ ':' :: pad2 d.minute ++ ':' :: pad2 d.second).length = 19 := by
  simp [pad4, pad2]

/-- The generated download filename is the prefix, the ISO date-time
truncated to whole seconds with both colons now hyphens, and the container
extension. -/
theorem filename_shape (d : Date) :
    downloadFilename d =
      "interview-recording-".data ++
        (pad4 d.year ++ '-' :: pad2 d.month ++ '-' :: pad2 d.day ++
          'T' :: pad2 d.hour ++ '-' :: pad2 d.minute ++ '-' :: pad2 d.second) ++
      ".webm".data := by
  rw [downloadFilename, iso_split, List.take_left' (front_len d)]
  simp [pad4, pad2, deColon_digitChar, deColon_colon, deColon_dash, deColon_T]

theorem filename_no_colon (d : Date) : ':' ∉ downloadFilename d := by
  rw [filename_shape]
  intro hmem
  rcases List.mem_append.mp hmem with h1 | h2
  · rcases List.mem_append.mp h1 with h3 | h4
    · revert h3; decide
    · revert h4
      simp [pad4, pad2, colon_ne_digitChar]
  · revert h2; decide

/-- C1, counterexample.  The claim says the count of outstanding artifact
handles never exceeds 1 over any sequence of recorder operations.  But
`onstop` (script.js 99-105) creates the new object URL without revoking the
previous one, so after start-stop-start-stop two handles are outstanding:
only `resetRecording` ever revokes. -/
theorem C1_counterexample :
    liveUrlCount (run initState
      [Event.cameraOk, Event.start, Event.stop, Event.start, Event.stop]) = 2 ∧
    ¬ liveUrlCount (run initState
      [Event.cameraOk, Event.start, Event.stop, Event.start, Event.stop]) ≤ 1 := by
  decide

/-- C1, amended.  Provided `start()` is only invoked when the session is
Idle (not recording, no artifact held) — i.e. a reset precedes every
re-recording, as in the §4.2 table — at most one artifact object URL is
ever outstanding.  Without that restriction a `start()` from Stopped
followed by `stop()` yields two outstanding handles, because `stop()` never
releases the prior artifact reference. -/
theorem C1_amended (s : JSState) (h : GuardedReach s) : liveUrlCount s ≤ 1 :=
  (guarded_inv h).a2

/-- C1, witness for the amended theorem on a guarded camera-start-stop-reset
run. -/
theorem C1_amended_witness :
    liveUrlCount (run initState
      [Event.cameraOk, Event.start, Event.stop, Event.resetOk]) ≤ 1 :=
  C1_amended _
    (GuardedReach.next _ Event.resetOk
      (GuardedReach.next _ Event.stop
        (GuardedReach.next _ Event.start
          (GuardedReach.next _ Event.cameraOk GuardedReach.init (fun h => by cases h))
          (fun _ => ⟨rfl, rfl⟩))
        (fun h => by cases h))
      (fun h => by cases h))

/-- C2, counterexample.  The claim says reset (Stopped to Idle) leaves
exactly one active MediaSource.  But `resetRecording` re-runs
`initializeCamera`, which overwrites the `stream` variable without stopping
the previous stream's tracks (they are only ever stopped in the
`beforeunload` handler), so after a recording cycle plus reset two streams
are active. -/
theorem C2_counterexample :
    activeStreamCount (run initState
      [Event.cameraOk, Event.start, Event.stop, Event.resetOk]) = 2 ∧
    ¬ activeStreamCount (run initState
      [Event.cameraOk, Event.start, Event.stop, Event.resetOk]) ≤ 1 := by
  decide

/-- C2, amended.  `resetRecording` acquires and registers a fresh active
MediaSource and makes it current, but never stops the previous stream's
tracks: every previously registered stream survives unchanged, so the
active-source count goes up by one — and is at least 2 whenever a stream
was already active — instead of staying at one. -/
theorem C2_amended (s : JSState) (st : MediaStream) (hmem : st ∈ s.streams)
    (hact : streamActive st = true) :
    activeStreamCount (resetRecording true s) = activeStreamCount s + 1 ∧
    st ∈ (resetRecording true s).streams ∧
    2 ≤ activeStreamCount (resetRecording true s) := by
  have hstreams : (resetRecording true s).streams =
      s.streams ++
        [{ id := s.nextStreamId
           tracks := { kind := TrackKind.video, live := true, enabled := true } ::
             (if s.isMicEnabled then
               [{ kind := TrackKind.audio, live := true, enabled := true }]
              else []) }] := by
    cases hu : s.recordedVideoUrl <;>
      simp [resetRecording, hu, switchToPreviewMode, initializeCamera]
  have hnew : streamActive
      { id := s.nextStreamId
        tracks := { kind := TrackKind.video, live := true, enabled := true } ::
          (if s.isMicEnabled then
            [{ kind := TrackKind.audio, live := true, enabled := true }]
           else []) } = true := by
    simp [streamActive]
  have hcount : activeStreamCount (resetRecording true s) = activeStreamCount s + 1 := by
    rw [activeStreamCount, hstreams, List.filter_append]
    simp [activeStreamCount, hnew]
  have hpos : 0 < activeStreamCount s := by
    have hmf : st ∈ s.streams.filter streamActive := List.mem_filter.mpr ⟨hmem, hact⟩
    exact List.length_pos.mpr (List.ne_nil_of_mem hmf)
  exact ⟨hcount, by rw [hstreams]; exact List.mem_append_left _ hmem, by omega⟩

/-- C2, witness for the amended theorem: resetting right after the initial
camera acquisition leaves both the original stream and the fresh one
active. -/
theorem C2_amended_witness :
    activeStreamCount (resetRecording true (run initState [Event.cameraOk])) =
      activeStreamCount (run initState [Event.cameraOk]) + 1 ∧
    ({ id := 0
       tracks := [{ kind := TrackKind.video, live := true, enabled := true },
         { kind := TrackKind.audio, live := true, enabled := true }] } : MediaStream) ∈
      (resetRecording true (run initState [Event.cameraOk])).streams ∧
    2 ≤ activeStreamCount (resetRecording true (run initState [Event.cameraOk])) :=
  C2_amended (run initState [Event.cameraOk]) _ (by decide) (by decide)

/-- C3, counterexample.  The claim says calling `start()` while already
Recording changes nothing and leaves one timer run active.  But
`startRecording` has no `isRecording` guard: after one second of recording
with one delivered fragment, calling it again clears the fragment
sequence, zeroes the elapsed counter, replaces the recorder, and arms a
second interval without clearing the first. -/
theorem C3_counterexample :
    (startRecording (run initState
      [Event.cameraOk, Event.start, Event.tick 0, Event.frag 0 [1]])).recordingTime = 0 ∧
    (run initState
      [Event.cameraOk, Event.start, Event.tick 0, Event.frag 0 [1]]).recordingTime = 1 ∧
    (startRecording (run initState
      [Event.cameraOk, Event.start, Event.tick 0, Event.frag 0 [1]])).recordedChunks = [] ∧
    (run initState
      [Event.cameraOk, Event.start, Event.tick 0, Event.frag 0 [1]]).recordedChunks = [[1]] ∧
    (startRecording (run initState
      [Event.cameraOk, Event.start, Event.tick 0, Event.frag 0 [1]])).intervals.length = 2 ∧
    (startRecording (run initState
      [Event.cameraOk, Event.start, Event.tick 0, Event.frag 0 [1]])).mediaRecorder = some 1 := by
  decide

/-- C3, amended.  `startRecording` invoked while Recording (with a stream
present) is not a no-op: it restarts the session in place — fragment
sequence cleared, elapsed counter zeroed, a fresh recorder created and
started (the old one keeps its registry entry), and an additional timer
interval armed while the previous one stays armed.  (Through the UI's
`toggleRecording` a press while Recording invokes `stopRecording`
instead, which also changes state.) -/
theorem C3_amended (s : JSState) (i : Nat) (hs : s.stream = some i)
    (_hrec : s.isRecording = true) :
    (startRecording s).recordedChunks = [] ∧
    (startRecording s).recordingTime = 0 ∧
    (startRecording s).isRecording = true ∧
    (startRecording s).mediaRecorder = some s.nextRecorderId ∧
    (startRecording s).recorders = s.recorders ++ [s.nextRecorderId] ∧
    (startRecording s).intervals = s.intervals ++ [s.nextIntervalId] ∧
    (startRecording s).timerInterval = some s.nextIntervalId := by
  simp [startRecording, hs]

/-- C3, witness for the amended theorem after one tick and one fragment of
a running recording. -/
theorem C3_amended_witness :
    (startRecording (run initState
      [Event.cameraOk, Event.start, Event.tick 0, Event.frag 0 [1]])).recordedChunks = [] ∧
    (startRecording (run initState
      [Event.cameraOk, Event.start, Event.tick 0, Event.frag 0 [1]])).recordingTime = 0 ∧
    (startRecording (run initState
      [Event.cameraOk, Event.start, Event.tick 0, Event.frag 0 [1]])).isRecording = true ∧
    (startRecording (run initState
      [Event.cameraOk, Event.start, Event.tick 0, Event.frag 0 [1]])).mediaRecorder =
      some (run initState
        [Event.cameraOk, Event.start, Event.tick 0, Event.frag 0 [1]]).nextRecorderId ∧
    (startRecording (run initState
      [Event.cameraOk, Event.start, Event.tick 0, Event.frag 0 [1]])).recorders =
      (run initState
        [Event.cameraOk, Event.start, Event.tick 0, Event.frag 0 [1]]).recorders ++
        [(run initState
          [Event.cameraOk, Event.start, Event.tick 0, Event.frag 0 [1]]).nextRecorderId] ∧
    (startRecording (run initState
      [Event.cameraOk, Event.start, Event.tick 0, Event.frag 0 [1]])).intervals =
      (run initState
        [Event.cameraOk, Event.start, Event.tick 0, Event.frag 0 [1]]).intervals ++
        [(run initState
          [Event.cameraOk, Event.start, Event.tick 0, Event.frag 0 [1]]).nextIntervalId] ∧
    (startRecording (run initState
      [Event.cameraOk, Event.start, Event.tick 0, Event.frag 0 [1]])).timerInterval =
      some (run initState
        [Event.cameraOk, Event.start, Event.tick 0, Event.frag 0 [1]]).nextIntervalId :=
  C3_amended _ 0 rfl rfl

/-- C4, counterexample.  The claim says teardown releases both the stream
tracks and the artifact's backing resource.  Tearing down in the Stopped
state stops all tracks (active stream count drops to 0) but the artifact's
object URL is still outstanding: the `beforeunload` handler never calls
`URL.revokeObjectURL`. -/
theorem C4_counterexample :
    liveUrlCount (run initState
      [Event.cameraOk, Event.start, Event.stop, Event.unload]) = 1 ∧
    activeStreamCount (run initState
      [Event.cameraOk, Event.start, Event.stop, Event.unload]) = 0 := by
  decide

/-- C4, amended.  In every state, the `beforeunload` handler stops all
tracks of the current MediaSource (every registry entry bearing its id
becomes inactive) — but it leaves the artifact url registry and
`recordedVideoUrl` completely untouched: the artifact's backing resource
is not released on teardown. -/
theorem C4_amended (s : JSState) (i : Nat) (hcur : s.stream = some i) :
    (beforeunload s).urls = s.urls ∧
    (beforeunload s).recordedVideoUrl = s.recordedVideoUrl ∧
    ∀ st ∈ (beforeunload s).streams, st.id = i → streamActive st = false := by
  have hstreams : (beforeunload s).streams =
      s.streams.map fun (st : MediaStream) => if st.id = i then stopTracks st else st := by
    cases ht : s.timerInterval <;> simp [beforeunload, hcur, ht]
  refine ⟨?_, ?_, ?_⟩
  · cases ht : s.timerInterval <;> simp [beforeunload, hcur, ht]
  · cases ht : s.timerInterval <;> simp [beforeunload, hcur, ht]
  · rw [hstreams]
    intro st hst hid
    rcases List.mem_map.mp hst with ⟨st0, hst0, heq⟩
    by_cases h0 : st0.id = i
    · rw [if_pos h0] at heq
      subst heq
      simp [streamActive, stopTracks, List.any_map, Function.comp]
    · rw [if_neg h0] at heq
      subst heq
      exact absurd hid h0

/-- C4, witness for the amended theorem: tearing down in Stopped keeps the
url registry and deadens the current stream. -/
theorem C4_amended_witness :
    (beforeunload (run initState [Event.cameraOk, Event.start, Event.stop])).urls =
      (run initState [Event.cameraOk, Event.start, Event.stop]).urls ∧
    streamActive
      { id := 0
        tracks := [{ kind := TrackKind.video, live := false, enabled := true },
          { kind := TrackKind.audio, live := false, enabled := true }] } = false :=
  ⟨(C4_amended (run initState [Event.cameraOk, Event.start, Event.stop]) 0 rfl).1,
    (C4_amended (run initState [Event.cameraOk, Event.start, Event.stop]) 0 rfl).2.2 _
      (by decide) rfl⟩

/-- C5.  For every sequence of fragments delivered during a single
Recording phase, the artifact produced by `stop()` is one blob whose byte
content is the concatenation of exactly the positive-size fragments in
arrival order, tagged `"video/webm"`; zero-length fragments are dropped
without error, and the new url is the one the module now holds. -/
theorem C5_artifact_concat (s : JSState) (i : Nat) (hs : s.stream = some i)
    (ds : List Fragment) :
    (stopRecording (run (startRecording s) (ds.map (Event.frag s.nextRecorderId)))).urls =
      s.urls ++ [(s.nextUrlId,
        { data := (ds.filter fun d => decide (0 < d.length)).flatten,
          type := "video/webm" })] ∧
    (stopRecording (run (startRecording s)
        (ds.map (Event.frag s.nextRecorderId)))).recordedVideoUrl =
      some s.nextUrlId := by
  rw [run_frag_map _ _ _ (by simp [startRecording, hs])]
  simp [startRecording, hs, stopRecording, recorderOnStop, switchToPlaybackMode]

/-- C5, witness: fragments `[1,2]`, `[]`, `[3]` produce the artifact
`[1,2,3]`. -/
theorem C5_artifact_concat_witness :
    (stopRecording (run (startRecording (run initState [Event.cameraOk]))
        ([[1, 2], [], [3]].map (Event.frag 0)))).urls =
      [(0, { data := [1, 2, 3], type := "video/webm" })] ∧
    (stopRecording (run (startRecording (run initState [Event.cameraOk]))
        ([[1, 2], [], [3]].map (Event.frag 0)))).recordedVideoUrl = some 0 :=
  C5_artifact_concat (run initState [Event.cameraOk]) 0 rfl [[1, 2], [], [3]]

/-- C6.  Illegal transitions are no-ops that never throw: `startRecording`
with no active stream returns with the state untouched, and
`stopRecording` outside Recording returns with the state untouched.  (Both
are total functions of the state, so no exception escapes to the
caller.) -/
theorem C6_illegal_noop (s : JSState) :
    (s.stream = none → startRecording s = s) ∧
    (s.isRecording = false → stopRecording s = s) := by
  constructor
  · intro h
    simp [startRecording, h]
  · intro h
    cases hm : s.mediaRecorder with
    | none => simp [stopRecording, hm]
    | some r => simp [stopRecording, hm, h]

/-- C6, witness at the initial state, where no stream is active and no
recording is running. -/
theorem C6_illegal_noop_witness :
    startRecording initState = initState ∧ stopRecording initState = initState :=
  ⟨(C6_illegal_noop initState).1 rfl, (C6_illegal_noop initState).2 rfl⟩

/-- C7, counterexample.  The claim says ViewMode is Playback iff the state
is Stopped, for every reachable state.  But `startRecording` from Stopped
(reachable, since nothing guards it) starts recording while
`isPreviewMode` stays false: a Recording state shown in Playback mode. -/
theorem C7_counterexample :
    ¬ (viewModeOf (run initState
        [Event.cameraOk, Event.start, Event.stop, Event.start]) = ViewMode.playback ↔
      stateOf (run initState
        [Event.cameraOk, Event.start, Event.stop, Event.start]) = RState.stopped) ∧
    viewModeOf (run initState
      [Event.cameraOk, Event.start, Event.stop, Event.start]) = ViewMode.playback ∧
    stateOf (run initState
      [Event.cameraOk, Event.start, Event.stop, Event.start]) = RState.recording := by
  decide

/-- C7, amended.  For every state reachable while `start()` is only invoked
in Idle (the §4.2 precondition), ViewMode equals Playback exactly when the
session state is Stopped, and Preview otherwise. -/
theorem C7_amended (s : JSState) (h : GuardedReach s) :
    viewModeOf s = ViewMode.playback ↔ stateOf s = RState.stopped := by
  have M := (guarded_inv h).m
  unfold viewModeOf stateOf
  cases hp : s.isPreviewMode <;> cases hr : s.isRecording <;>
    cases hu : s.recordedVideoUrl <;> simp_all

/-- C7, witness for the amended theorem on a guarded camera-start-stop
run ending in Stopped and Playback. -/
theorem C7_amended_witness :
    (viewModeOf (run initState [Event.cameraOk, Event.start, Event.stop]) =
        ViewMode.playback ↔
      stateOf (run initState [Event.cameraOk, Event.start, Event.stop]) =
        RState.stopped) :=
  C7_amended _
    (GuardedReach.next _ Event.stop
      (GuardedReach.next _ Event.start
        (GuardedReach.next _ Event.cameraOk GuardedReach.init (fun h => by cases h))
        (fun _ => ⟨rfl, rfl⟩))
      (fun h => by cases h))

/-- C8, counterexample.  The claim says the elapsed counter stops changing
immediately once `stop()` is invoked.  But a second `startRecording` during
Recording leaks the first interval (its id is overwritten in
`timerInterval` before being cleared), so after `stop()` the leaked
interval still fires and increments the counter although recording has
ended. -/
theorem C8_counterexample :
    (run initState [Event.cameraOk, Event.start, Event.start, Event.stop]).isRecording =
      false ∧
    (run initState [Event.cameraOk, Event.start, Event.start, Event.stop]).recordingTime =
      0 ∧
    (tickFire 0 (run initState
      [Event.cameraOk, Event.start, Event.start, Event.stop])).recordingTime = 1 := by
  decide

/-- C8, amended.  Each firing of an armed timer interval increments the
elapsed counter by exactly 1; and provided `start()` is only invoked in
Idle (so at most one interval is ever armed and `timerInterval` knows it),
`stopRecording` from Recording disarms it and afterwards no tick event has
any effect — the counter can no longer change through ticks.  Without that
restriction a leaked interval keeps incrementing after `stop()`. -/
theorem C8_amended (s : JSState) (h : GuardedReach s) :
    (∀ i, i ∈ s.intervals → (tickFire i s).recordingTime = s.recordingTime + 1) ∧
    (s.isRecording = true → ∀ i, tickFire i (stopRecording s) = stopRecording s) := by
  have G := guarded_inv h
  constructor
  · intro i hi
    simp [tickFire, hi]
  · intro hrec i
    cases hm : s.mediaRecorder with
    | none => exact absurd hm (G.t3 hrec)
    | some r =>
      have hint : (stopRecording s).intervals = [] := by
        rcases G.t2 with h2 | ⟨j, h2, h3⟩
        · simp [stopRecording, recorderOnStop, switchToPlaybackMode, hm, hrec, h2]
          cases s.timerInterval <;> simp
        · simp [stopRecording, recorderOnStop, switchToPlaybackMode, hm, hrec, h2, h3]
      simp [tickFire, hint]

/-- C8, witness for the amended theorem on a guarded camera-start run: the
armed interval's tick increments by one, and no tick moves the state after
stopping. -/
theorem C8_amended_witness :
    (tickFire 0 (run initState [Event.cameraOk, Event.start])).recordingTime =
      (run initState [Event.cameraOk, Event.start]).recordingTime + 1 ∧
    tickFire 0 (stopRecording (run initState [Event.cameraOk, Event.start])) =
      stopRecording (run initState [Event.cameraOk, Event.start]) :=
  ⟨(C8_amended _
      (GuardedReach.next _ Event.start
        (GuardedReach.next _ Event.cameraOk GuardedReach.init (fun h => by cases h))
        (fun _ => ⟨rfl, rfl⟩))).1 0 (by decide),
   (C8_amended _
      (GuardedReach.next _ Event.start
        (GuardedReach.next _ Event.cameraOk GuardedReach.init (fun h => by cases h))
        (fun _ => ⟨rfl, rfl⟩))).2 rfl 0⟩

/-- C9.  `downloadVideo` in a state holding an artifact triggers a save of
that artifact under the filename `interview-recording-` ++ the ISO8601
timestamp truncated to whole seconds with colons replaced by hyphens ++
`.webm`, contains no colon, and returns the module state unchanged. -/
theorem C9_download_filename (s : JSState) (u : Nat) (now : Date)
    (hu : s.recordedVideoUrl = some u) :
    (downloadVideo now s).1 = s ∧
    (downloadVideo now s).2 = some { href := u, filename := downloadFilename now } ∧
    downloadFilename now =
      "interview-recording-".data ++
        (pad4 now.year ++ '-' :: pad2 now.month ++ '-' :: pad2 now.day ++
          'T' :: pad2 now.hour ++ '-' :: pad2 now.minute ++ '-' :: pad2 now.second) ++
        ".webm".data ∧
    ':' ∉ downloadFilename now := by
  refine ⟨?_, ?_, filename_shape now, filename_no_colon now⟩
  · simp [downloadVideo, hu]
  · simp [downloadVideo, hu]

/-- C9, witness: downloading in the Stopped state at a concrete timestamp
leaves the state unchanged and produces the expected concrete filename. -/
theorem C9_download_filename_witness :
    (downloadVideo
        { year := 2024, month := 5, day := 6, hour := 7, minute := 8, second := 9, ms := 123 }
        (run initState [Event.cameraOk, Event.start, Event.stop])).1 =
      run initState [Event.cameraOk, Event.start, Event.stop] ∧
    downloadFilename
        { year := 2024, month := 5, day := 6, hour := 7, minute := 8, second := 9, ms := 123 } =
      "interview-recording-2024-05-06T07-08-09.webm".data :=
  ⟨(C9_download_filename (run initState [Event.cameraOk, Event.start, Event.stop]) 0
      { year := 2024, month := 5, day := 6, hour := 7, minute := 8, second := 9, ms := 123 }
      rfl).1,
    by decide⟩

/-- C10, counterexample.  The claim says `toggleMicrophone` is a complete
no-op when no active MediaSource exists.  But the flag flip
`isMicEnabled = !isMicEnabled` happens before the stream check, so in the
initial state (no stream) the call still changes the module state. -/
theorem C10_counterexample :
    toggleMicrophone initState ≠ initState ∧
    initState.stream = none ∧
    (toggleMicrophone initState).isMicEnabled = false ∧
    initState.isMicEnabled = true := by
  decide

/-- C10, amended.  `toggleMicrophone` always flips the audio-enabled flag —
also when no stream exists, in which case nothing else changes (no track is
touched).  With a current stream it rewrites only that stream's entry in
place: ids, track kinds and track liveness are unchanged (no
reacquisition, nothing stopped), and every audio track's `enabled` becomes
the new flag value. -/
theorem C10_amended (s : JSState) :
    (toggleMicrophone s).isMicEnabled = !s.isMicEnabled ∧
    (s.stream = none → toggleMicrophone s = { s with isMicEnabled := !s.isMicEnabled }) ∧
    (∀ i, s.stream = some i →
      (toggleMicrophone s).stream = some i ∧
      (toggleMicrophone s).streams = s.streams.map fun (st : MediaStream) =>
        if st.id = i then setStreamAudioEnabled (!s.isMicEnabled) st else st) ∧
    (∀ (b : Bool) (st : MediaStream),
      (setStreamAudioEnabled b st).id = st.id ∧
      (setStreamAudioEnabled b st).tracks.map Track.kind = st.tracks.map Track.kind ∧
      (setStreamAudioEnabled b st).tracks.map Track.live = st.tracks.map Track.live ∧
      ∀ t ∈ (setStreamAudioEnabled b st).tracks, t.kind = TrackKind.audio → t.enabled = b) := by
  refine ⟨?_, ?_, ?_, ?_⟩
  · cases hs : s.stream <;> simp [toggleMicrophone, hs]
  · intro hs
    simp [toggleMicrophone, hs]
  · intro i hs
    constructor
    · simp [toggleMicrophone, hs]
    · simp [toggleMicrophone, hs]
  · intro b st
    refine ⟨rfl, ?_, ?_, ?_⟩
    · simp only [setStreamAudioEnabled, List.map_map]
      apply List.map_congr_left
      intro t ht
      by_cases hk : t.kind = TrackKind.audio <;> simp [hk]
    · simp only [setStreamAudioEnabled, List.map_map]
      apply List.map_congr_left
      intro t ht
      by_cases hk : t.kind = TrackKind.audio <;> simp [hk]
    · intro t ht hk
      rcases List.mem_map.mp ht with ⟨t0, ht0, heq⟩
      by_cases h0 : t0.kind = TrackKind.audio
      · rw [if_pos h0] at heq
        subst heq
        rfl
      · rw [if_neg h0] at heq
        subst heq
        exact absurd hk h0

/-- C10, witness for the amended theorem at the initial state (no
stream): the flag flips and nothing else changes. -/
theorem C10_amended_witness :
    (toggleMicrophone initState).isMicEnabled = !initState.isMicEnabled ∧
    toggleMicrophone initState = { initState with isMicEnabled := !initState.isMicEnabled } :=
  ⟨(C10_amended initState).1, (C10_amended initState).2.1 rfl⟩

end SkillKrack
